import Mathlib

/-!
Shallow embedding of the disposable-browser-session backend
(sessionStore.ts, dockerService.ts, sessionManager.ts, and the
stop/extend/proxy HTTP handlers), together with theorems settling the
frozen claims about it.

Modelling conventions:
* Timestamps and durations are milliseconds as `Int` (JS `Date.now()`
  arithmetic); ports are `Nat`; container ids are `String`.
* The JS `Map<string, Session>` is an association list keyed by
  container id.  JS map keys are unique, so delete removes every
  binding of the key and set replaces the first binding in place.
* A `setTimeout` handle is modelled by its scheduled fire time
  (`Option Int`); `none` means no live timer exists for the session.
* Async functions called without `await` are modelled by returning the
  redis effect in a `pending` list; awaited redis calls land in a
  `completed` list.  In the single-threaded Node model an effect in
  `pending` has not completed when the enclosing call returns.
* Fields of the source records that no claim touches (session
  `metadata`, container inspect `status`) are omitted.
-/

/-- One session record, as kept in `SessionStore.sessions`
(sessionStore.ts).  `timer` is the scheduled fire time of the live
`setTimeout` reclamation timer, `none` when no live timer exists. -/
structure Session where
  containerId : String
  hostPort : Nat
  expiresAt : Int
  timer : Option Int
  userId : Option String
deriving DecidableEq, Repr

/-- The in-memory table of `SessionStore`: a JS `Map` keyed by
container id, modelled as an association list with unique keys. -/
abbrev Store : Type := List (String × Session)

/-- `Map.get`: first binding of the key, if any. -/
def findSession : Store → String → Option Session
  | [], _ => none
  | (k, s) :: rest, id => if k = id then some s else findSession rest id

/-- `Map.set`: replace the first binding in place, else append. -/
def setKV : Store → String → Session → Store
  | [], k, v => [(k, v)]
  | (k0, s0) :: rest, k, v =>
      if k0 = k then (k, v) :: rest else (k0, s0) :: setKV rest k v

/-- `Map.delete`: drop every binding of the key (maps have at most
one, so this agrees with the JS behaviour on the maps that arise). -/
def eraseKV (st : Store) (k : String) : Store :=
  st.filter (fun p => p.1 ≠ k)

/-- A write or delete against the durable redis mirror. -/
inductive MirrorOp
  | write (containerId : String) (ttlSeconds : Int)
  | delete (containerId : String)
deriving DecidableEq, Repr

/-- Which mirror effects a store operation completed before returning
(awaited) and which it merely started (not awaited). -/
structure MirrorLog where
  completed : List MirrorOp
  pending : List MirrorOp
deriving DecidableEq, Repr

/-- `Math.ceil(remainingMs / 1000)`, the SETEX expiration argument
computed by `persistSession`. -/
def ttlSeconds (remainingMs : Int) : Int :=
  Int.ediv (remainingMs + 999) 1000

namespace SessionStore

/-- `SessionStore.createSession`: builds the record, arms the expiry
timer for `now + durationMs`, inserts into the map and starts (without
awaiting) the mirror write of `persistSession`. -/
def createSession (st : Store) (containerId : String) (hostPort : Nat)
    (durationMs : Int) (userId : Option String) (now : Int) :
    Session × Store × MirrorLog :=
  let expiresAt := now + durationMs
  let s : Session :=
    { containerId := containerId
      hostPort := hostPort
      expiresAt := expiresAt
      timer := some expiresAt
      userId := userId }
  (s, setKV st containerId s,
    { completed := [], pending := [MirrorOp.write containerId (ttlSeconds (expiresAt - now))] })

/-- `SessionStore.getSession`. -/
def getSession (st : Store) (containerId : String) : Option Session :=
  findSession st containerId

/-- `SessionStore.getActiveSessionsCount`: the map size. -/
def getActiveSessionsCount (st : Store) : Nat :=
  st.length

/-- `SessionStore.removeSession`: false if absent; otherwise clears
the timer, deletes the entry and awaits the mirror delete. -/
def removeSession (st : Store) (containerId : String) :
    Bool × Store × MirrorLog :=
  match findSession st containerId with
  | none => (false, st, { completed := [], pending := [] })
  | some _ =>
      (true, eraseKV st containerId,
        { completed := [MirrorOp.delete containerId], pending := [] })

/-- `SessionStore.updateSessionExpiry`: false if absent; otherwise
clears the old timer, sets `expiresAt`, re-arms the timer to fire at
the new expiry and starts (without awaiting) the mirror write. -/
def updateSessionExpiry (st : Store) (containerId : String)
    (newExpiresAt : Int) (now : Int) : Bool × Store × MirrorLog :=
  match findSession st containerId with
  | none => (false, st, { completed := [], pending := [] })
  | some s =>
      let s' := { s with expiresAt := newExpiresAt, timer := some newExpiresAt }
      (true, setKV st containerId s',
        { completed := [], pending := [MirrorOp.write containerId (ttlSeconds (newExpiresAt - now))] })

/-- `SessionStore.getRemainingTime`: 0 for unknown ids, else
`Math.max(0, expiresAt - now)`. -/
def getRemainingTime (st : Store) (containerId : String) (now : Int) : Int :=
  match findSession st containerId with
  | none => 0
  | some s => max 0 (s.expiresAt - now)

/-- `SessionStore.getSessionHostPort`: `session?.hostPort || null` —
an absent session and a recorded port of 0 both map to `none`. -/
def getSessionHostPort (st : Store) (containerId : String) : Option Nat :=
  match findSession st containerId with
  | none => none
  | some s => if s.hostPort = 0 then none else some s.hostPort

/-- `SessionStore.isSessionActive`: present and not yet expired. -/
def isSessionActive (st : Store) (containerId : String) (now : Int) : Bool :=
  match findSession st containerId with
  | none => false
  | some s => decide (now < s.expiresAt)

/-- One iteration of the `loadSessionsFromRedis` loop: a mirror entry
with a future `expiresAt` is set into memory keyed by its container id
(the JSON-parsed record carries no live timer handle, and the loop
calls no `setTimeout`, so the restored record has `timer = none`); an
expired entry is deleted from the mirror instead. -/
def loadStep (now : Int) (acc : Store × List String) (entry : String × Session) :
    Store × List String :=
  if now < entry.2.expiresAt then
    (setKV acc.1 entry.2.containerId { entry.2 with timer := none }, acc.2)
  else
    (acc.1, acc.2 ++ [entry.1])

/-- `SessionStore.loadSessionsFromRedis`: iterate over all mirrored
records, returning the rebuilt in-memory table and the list of mirror
keys deleted because their `expiresAt` had passed. -/
def loadSessionsFromRedis (mirror : List (String × Session)) (now : Int) :
    Store × List String :=
  mirror.foldl (loadStep now) ([], [])

end SessionStore

/-- The outcomes of the runtime calls a single `startContainer`
invocation can make (dockerode responses): the `listContainers` count
or its failure, whether the local image inspect or pull succeeds,
whether `createContainer` succeeds, whether `container.start()`
succeeds on a given 1-based attempt, the host port visible to
`inspect` as a function of elapsed milliseconds, and the id the
runtime assigns to the created container. -/
structure DockerOracle where
  listActive : Except Unit Nat
  imageOk : Bool
  createOk : Bool
  startOk : Nat → Bool
  portAt : Nat → Nat
  newContainerId : String

/-- The slice of a container inspect result the session path uses. -/
structure ContainerInfo where
  id : String
  hostPort : Nat
deriving DecidableEq, Repr

/-- The distinct error exits of the create path (the source throws
`Error` values distinguished by message; the start-session handler
maps the capacity message to 429 and others to 5xx). -/
inductive SessionError
  | maxSessionsReached
  | imageUnavailable
  | createFailed
  | startFailed
deriving DecidableEq, Repr

/-- What one run of the start-with-retry loop did: whether it
returned normally, how many `container.start()` calls it made, and
the backoff sleeps (ms) it performed between failed attempts. -/
structure RetryResult where
  success : Bool
  attempts : Nat
  sleeps : List Nat
deriving DecidableEq, Repr

namespace DockerService

/-- The body of `startContainerWithRetry`: attempt numbers count up
from `attempt`; `fuel` is the number of attempts still allowed
(`maxRetries - attempt + 1`).  A failed non-final attempt sleeps
`retryDelay * attempt` before the next try; the final failure
propagates the error. -/
def startRetryGo (startOk : Nat → Bool) (retryDelay attempt : Nat) :
    Nat → RetryResult
  | 0 => { success := false, attempts := 0, sleeps := [] }
  | remaining + 1 =>
      if startOk attempt then { success := true, attempts := 1, sleeps := [] }
      else if remaining = 0 then { success := false, attempts := 1, sleeps := [] }
      else
        let r := startRetryGo startOk retryDelay (attempt + 1) remaining
        { success := r.success, attempts := r.attempts + 1,
          sleeps := retryDelay * attempt :: r.sleeps }

/-- `DockerService.startContainerWithRetry` with the class fields
`maxRetries = 3` and `retryDelay = 1000`. -/
def startContainerWithRetry (startOk : Nat → Bool) : RetryResult :=
  startRetryGo startOk 1000 1 3

/-- `DockerService.getActiveContainersCount`: the length of the
`listContainers` answer, or 0 when listing fails (the catch branch). -/
def getActiveContainersCount (o : DockerOracle) : Nat :=
  match o.listActive with
  | Except.ok n => n
  | Except.error _ => 0

/-- The polling loop of `waitForHostPort`: inspect every `step` ms
while the elapsed time is below the timeout (`fuel` iterations);
return the port once positive, else fall back to 0. -/
def waitForHostPortGo (portAt : Nat → Nat) (step : Nat) : Nat → Nat → Nat
  | _, 0 => 0
  | t, fuel + 1 =>
      if 0 < portAt t then portAt t
      else waitForHostPortGo portAt step (t + step) fuel

/-- `DockerService.waitForHostPort` with its defaults: 100 ms polls
under a 5000 ms budget, so 50 inspects before the 0 fallback. -/
def waitForHostPort (portAt : Nat → Nat) : Nat :=
  waitForHostPortGo portAt 100 0 50

/-- Everything observable about one `DockerService.startContainer`
call: its result, how many `createContainer` calls it made, how many
containers it left existing in the runtime, and the start attempts
and backoff sleeps of the retry loop. -/
structure StartOutcome where
  result : Except SessionError ContainerInfo
  createCalls : Nat
  containersAfter : Nat
  startAttempts : Nat
  sleeps : List Nat
deriving Repr

/-- `DockerService.startContainer`: capacity check against the listed
running count, ensure the image, create the container (once), start
it with the bounded retry, then poll for the host port.  Every catch
branch merely logs and rethrows: a container created before a failed
start stays in the runtime. -/
def startContainer (maxSessions : Nat) (o : DockerOracle) : StartOutcome :=
  if maxSessions ≤ getActiveContainersCount o then
    { result := Except.error SessionError.maxSessionsReached,
      createCalls := 0, containersAfter := 0, startAttempts := 0, sleeps := [] }
  else if o.imageOk = false then
    { result := Except.error SessionError.imageUnavailable,
      createCalls := 0, containersAfter := 0, startAttempts := 0, sleeps := [] }
  else if o.createOk = false then
    { result := Except.error SessionError.createFailed,
      createCalls := 1, containersAfter := 0, startAttempts := 0, sleeps := [] }
  else
    if (startContainerWithRetry o.startOk).success = false then
      { result := Except.error SessionError.startFailed,
        createCalls := 1, containersAfter := 1,
        startAttempts := (startContainerWithRetry o.startOk).attempts,
        sleeps := (startContainerWithRetry o.startOk).sleeps }
    else
      { result := Except.ok { id := o.newContainerId, hostPort := waitForHostPort o.portAt },
        createCalls := 1, containersAfter := 1,
        startAttempts := (startContainerWithRetry o.startOk).attempts,
        sleeps := (startContainerWithRetry o.startOk).sleeps }

/-- `DockerService.stopContainer`: inspect, stop if running, remove;
returns false (after the catch) when the container is already gone. -/
def stopContainer (containers : List String) (containerId : String) :
    Bool × List String :=
  if containers.contains containerId then (true, containers.erase containerId)
  else (false, containers)

end DockerService

/-- The payload `SessionManager.createSession` returns to the HTTP
layer. -/
structure SessionResponse where
  containerId : String
  hostPort : Nat
  proxyUrl : String
  browserUrl : String
  expiresAt : Int
  remainingTimeMs : Int
deriving DecidableEq, Repr

/-- Everything observable about one `SessionManager.createSession`
call: its result, the session store afterwards, the mirror write it
left pending, and the runtime-side counters of the inner
`startContainer` call. -/
structure CreateOutcome where
  result : Except SessionError SessionResponse
  store : Store
  pendingMirror : List MirrorOp
  createCalls : Nat
  containersAfter : Nat
  startAttempts : Nat
  sleeps : List Nat
deriving Repr

namespace SessionManager

/-- `SessionManager.createSession` run to completion in isolation:
check the store count against the ceiling, start the container
(which re-checks capacity against the runtime, ensures the image,
creates and starts), then record the session in the store.  Any error
is logged and rethrown with no compensation. -/
def createSession (maxSessions : Nat) (st : Store) (o : DockerOracle)
    (durationMs : Int) (userId : Option String) (now : Int) : CreateOutcome :=
  if maxSessions ≤ SessionStore.getActiveSessionsCount st then
    { result := Except.error SessionError.maxSessionsReached, store := st,
      pendingMirror := [], createCalls := 0, containersAfter := 0,
      startAttempts := 0, sleeps := [] }
  else
    let d := DockerService.startContainer maxSessions o
    match d.result with
    | Except.error e =>
        { result := Except.error e, store := st, pendingMirror := [],
          createCalls := d.createCalls, containersAfter := d.containersAfter,
          startAttempts := d.startAttempts, sleeps := d.sleeps }
    | Except.ok info =>
        let r := SessionStore.createSession st info.id info.hostPort durationMs userId now
        { result := Except.ok
            { containerId := info.id
              hostPort := info.hostPort
              proxyUrl := "/browser-session/" ++ info.id ++ "/"
              browserUrl := "http://localhost:" ++ toString info.hostPort ++ "/"
              expiresAt := r.1.expiresAt
              remainingTimeMs := durationMs },
          store := r.2.1, pendingMirror := r.2.2.pending,
          createCalls := d.createCalls, containersAfter := d.containersAfter,
          startAttempts := d.startAttempts, sleeps := d.sleeps }

/-- `SessionManager.getRemainingTime` delegates to the store. -/
def getRemainingTime (st : Store) (containerId : String) (now : Int) : Int :=
  SessionStore.getRemainingTime st containerId now

/-- `SessionManager.getSessionHostPort` delegates to the store. -/
def getSessionHostPort (st : Store) (containerId : String) : Option Nat :=
  SessionStore.getSessionHostPort st containerId

/-- `SessionManager.extendSession`: look the session up; an unknown
id throws, is caught and becomes `false`; otherwise add `extraMs` to
the stored `expiresAt` and apply `updateSessionExpiry`.  Returns the
success flag, the store afterwards, and the pending mirror write. -/
def extendSession (st : Store) (containerId : String) (extraMs : Int)
    (now : Int) : Bool × Store × List MirrorOp :=
  match SessionStore.getSession st containerId with
  | none => (false, st, [])
  | some s =>
      let u := SessionStore.updateSessionExpiry st containerId (s.expiresAt + extraMs) now
      (u.1, u.2.1, u.2.2.pending)

end SessionManager

/-- The shared state the stop path touches: the session store, the
containers existing in the runtime, and a counter of
`dockerService.stopContainer` invocations (the underlying runtime
teardown calls). -/
structure SysState where
  store : Store
  containers : List String
  stopCalls : Nat
deriving DecidableEq, Repr

/-- `SessionManager.stopSession`: always calls the runtime teardown,
then removes the store entry; returns the conjunction of the two
results (false when the session was already gone). -/
def sessionManagerStopSession (sys : SysState) (containerId : String) :
    Bool × SysState :=
  let c := DockerService.stopContainer sys.containers containerId
  let r := SessionStore.removeSession sys.store containerId
  (c.1 && r.1,
    { store := r.2.1, containers := c.2, stopCalls := sys.stopCalls + 1 })

/-- The JSON body an HTTP handler answers with (the fields the claims
talk about). -/
structure HttpReply where
  status : Nat
  success : Bool
  flag : Bool
deriving DecidableEq, Repr

/-- The `stopSession` HTTP handler: an inactive or unknown id is
answered 200 `stopped: true` without touching the manager; otherwise
the manager runs and both its success and its failure are answered
200 `stopped: true` (a failed stop is treated as already stopped). -/
def stopSessionHandler (sys : SysState) (containerId : String) (now : Int) :
    HttpReply × SysState :=
  if SessionStore.isSessionActive sys.store containerId now = false then
    ({ status := 200, success := true, flag := true }, sys)
  else
    let r := sessionManagerStopSession sys containerId
    if r.1 then ({ status := 200, success := true, flag := true }, r.2)
    else ({ status := 200, success := true, flag := true }, r.2)

/-- The `extendSession` HTTP handler: an inactive or unknown id is
answered 404 (`Session not found or already expired`) with nothing
changed; an active one is extended through the manager and answered
200 on success, 500 on failure. -/
def extendSessionHandler (st : Store) (containerId : String)
    (extendByMs : Int) (now : Int) : HttpReply × Store × List MirrorOp :=
  if SessionStore.isSessionActive st containerId now = false then
    ({ status := 404, success := false, flag := false }, st, [])
  else
    let r := SessionManager.extendSession st containerId extendByMs now
    if r.1 then ({ status := 200, success := true, flag := true }, r.2)
    else ({ status := 500, success := false, flag := false }, r.2)

/-- What `proxyToBrowser` does with a request: forward to the
resolved port, or answer 404.  The resolved value is `number | null`;
`null` fails the `typeof` guard, and stored ports are integers so the
`isNaN` guard never fires on them. -/
inductive ProxyOutcome
  | notFound
  | forwarded (port : Nat)
deriving DecidableEq, Repr

/-- The proxy entry: resolve the session host port and 404 when the
resolution is `null`. -/
def proxyToBrowser (st : Store) (containerId : String) : ProxyOutcome :=
  match SessionManager.getSessionHostPort st containerId with
  | none => ProxyOutcome.notFound
  | some p => ProxyOutcome.forwarded p

/-- Where one in-flight `createSession` request stands.  Each phase
boundary is an `await` in the source, so the Node event loop may run
the other request between any two phases: the store-count check
(sessionManager.ts), the runtime-count check (dockerService.ts), the
create-and-start step, and the synchronous store insert. -/
inductive AdmissionPhase
  | entry
  | storeChecked
  | dockerChecked
  | provisioned
  | recorded
  | rejected
deriving DecidableEq, Repr

/-- Shared state seen by two concurrent `createSession` requests:
the store size, the number of running containers, and each request
phase. -/
structure RaceState where
  storeCount : Nat
  running : Nat
  p1 : AdmissionPhase
  p2 : AdmissionPhase
deriving DecidableEq, Repr

/-- Advance one request by one phase against the shared state,
mirroring the corresponding source fragment: the two capacity checks
read the shared counts, provisioning increments the running count,
and recording inserts into the store. -/
def phaseStep (maxSessions : Nat) (storeCount running : Nat) :
    AdmissionPhase → AdmissionPhase × Nat × Nat
  | AdmissionPhase.entry =>
      if storeCount < maxSessions then (AdmissionPhase.storeChecked, storeCount, running)
      else (AdmissionPhase.rejected, storeCount, running)
  | AdmissionPhase.storeChecked =>
      if running < maxSessions then (AdmissionPhase.dockerChecked, storeCount, running)
      else (AdmissionPhase.rejected, storeCount, running)
  | AdmissionPhase.dockerChecked => (AdmissionPhase.provisioned, storeCount, running + 1)
  | AdmissionPhase.provisioned => (AdmissionPhase.recorded, storeCount + 1, running)
  | AdmissionPhase.recorded => (AdmissionPhase.recorded, storeCount, running)
  | AdmissionPhase.rejected => (AdmissionPhase.rejected, storeCount, running)

/-- One scheduler step: run the chosen request for one phase. -/
def raceStep (maxSessions : Nat) (st : RaceState) (second : Bool) : RaceState :=
  if second then
    let r := phaseStep maxSessions st.storeCount st.running st.p2
    { st with p2 := r.1, storeCount := r.2.1, running := r.2.2 }
  else
    let r := phaseStep maxSessions st.storeCount st.running st.p1
    { st with p1 := r.1, storeCount := r.2.1, running := r.2.2 }

/-- Run a schedule of interleaved phases. -/
def runRace (maxSessions : Nat) (st : RaceState) (sched : List Bool) : RaceState :=
  sched.foldl (raceStep maxSessions) st

/-- The schedule that runs both admission checks of both requests
before either request provisions or records. -/
def overlapSched : List Bool :=
  [false, true, false, true, false, true, false, true]

/-- Association-list facts used by the theorems below. -/
theorem findSession_setKV_self (st : Store) (k : String) (v : Session) :
    findSession (setKV st k v) k = some v := by
  induction st with
  | nil => simp [setKV, findSession]
  | cons p rest ih =>
      by_cases h : p.1 = k
      · simp [setKV, h, findSession]
      · simp [setKV, h, findSession, ih]

theorem findSession_eraseKV_self (st : Store) (k : String) :
    findSession (eraseKV st k) k = none := by
  induction st with
  | nil => simp [eraseKV, findSession]
  | cons p rest ih =>
      by_cases h : p.1 = k
      · simpa [eraseKV, h, findSession] using ih
      · simpa [eraseKV, h, findSession] using ih

theorem findSession_setKV_absent (st : Store) (k : String) (v : Session)
    (h : findSession st k = none) : setKV st k v = st ++ [(k, v)] := by
  induction st with
  | nil => simp [setKV]
  | cons p rest ih =>
      by_cases hk : p.1 = k
      · simp [findSession, hk] at h
      · simp [findSession, hk] at h
        simp [setKV, hk, ih h]

theorem findSession_append_left (st st' : Store) (k : String) (v : Session)
    (h : findSession st k = some v) :
    findSession (st ++ st') k = some v := by
  induction st with
  | nil => simp [findSession] at h
  | cons p rest ih =>
      by_cases hk : p.1 = k
      · simp [findSession, hk] at h ⊢
        exact h
      · simp [findSession, hk] at h ⊢
        exact ih h

theorem findSession_append_right (st st' : Store) (k : String)
    (h : findSession st k = none) :
    findSession (st ++ st') k = findSession st' k := by
  induction st with
  | nil => simp
  | cons p rest ih =>
      by_cases hk : p.1 = k
      · simp [findSession, hk] at h
      · simp [findSession, hk] at h ⊢
        exact ih h

/-- Both requests at their entry point, empty store, nothing
running. -/
def raceInit : RaceState :=
  { storeCount := 0, running := 0,
    p1 := AdmissionPhase.entry, p2 := AdmissionPhase.entry }

/-- A sample active session used by concrete witnesses. -/
def sampleSession : Session :=
  { containerId := "c1", hostPort := 7000, expiresAt := 100,
    timer := some 100, userId := none }

/-- An oracle on which the container start fails twice and succeeds
on the third attempt. -/
def thirdTryOracle : DockerOracle :=
  { listActive := Except.ok 0, imageOk := true, createOk := true,
    startOk := fun n => decide (n = 3), portAt := fun _ => 7000,
    newContainerId := "c1" }

/-- An oracle on which listing running containers fails. -/
def errListOracle : DockerOracle :=
  { listActive := Except.error (), imageOk := true, createOk := true,
    startOk := fun _ => true, portAt := fun _ => 7000,
    newContainerId := "c2" }

theorem startRetryGo_succ (startOk : Nat → Bool) (d a n : Nat) :
    DockerService.startRetryGo startOk d a (n + 1) =
      if startOk a then { success := true, attempts := 1, sleeps := [] }
      else if n = 0 then { success := false, attempts := 1, sleeps := [] }
      else
        { success := (DockerService.startRetryGo startOk d (a + 1) n).success,
          attempts := (DockerService.startRetryGo startOk d (a + 1) n).attempts + 1,
          sleeps := d * a :: (DockerService.startRetryGo startOk d (a + 1) n).sleeps } := by
  rfl

theorem startRetryGo_attempts_le (startOk : Nat → Bool) (d : Nat) :
    ∀ (f a : Nat), (DockerService.startRetryGo startOk d a f).attempts ≤ f := by
  intro f
  induction f with
  | zero => intro a; simp [DockerService.startRetryGo]
  | succ n ih =>
      intro a
      rw [startRetryGo_succ]
      by_cases h1 : startOk a
      · simp [h1]
      · by_cases h2 : n = 0
        · simp [h1, h2]
        · rw [if_neg (by simp [h1]), if_neg h2]
          have := ih (a + 1)
          simp only []
          omega

theorem startRetryGo_attempts_pos (startOk : Nat → Bool) (d a n : Nat) :
    1 ≤ (DockerService.startRetryGo startOk d a (n + 1)).attempts := by
  rw [startRetryGo_succ]
  by_cases h1 : startOk a
  · simp [h1]
  · by_cases h2 : n = 0
    · simp [h1, h2]
    · rw [if_neg (by simp [h1]), if_neg h2]
      simp only []
      omega

theorem startRetryGo_sleeps_linear (startOk : Nat → Bool) (d : Nat) :
    ∀ (f a : Nat), (DockerService.startRetryGo startOk d a f).sleeps =
      (List.range' a ((DockerService.startRetryGo startOk d a f).attempts - 1)).map
        (fun k => d * k) := by
  intro f
  induction f with
  | zero => intro a; simp [DockerService.startRetryGo]
  | succ n ih =>
      intro a
      rw [startRetryGo_succ]
      by_cases h1 : startOk a
      · simp [h1]
      · by_cases h2 : n = 0
        · simp [h1, h2]
        · rw [if_neg (by simp [h1]), if_neg h2]
          obtain ⟨m, rfl⟩ : ∃ m, n = m + 1 := ⟨n - 1, by omega⟩
          have hpos := startRetryGo_attempts_pos startOk d (a + 1) m
          simp only []
          rw [ih (a + 1)]
          obtain ⟨t, ht⟩ : ∃ t,
              (DockerService.startRetryGo startOk d (a + 1) (m + 1)).attempts = t + 1 :=
            ⟨(DockerService.startRetryGo startOk d (a + 1) (m + 1)).attempts - 1, by omega⟩
          rw [ht]
          simp [List.range'_succ]

/-- C1: the claim states that the admission check and the session
count increment of `createSession` form a single atomic step, so no
two concurrent calls can both pass the check when one slot remains.
In the source the store-count check, the runtime-count check, the
provisioning and the store insert are separated by awaited runtime
calls; the schedule that runs both admission checks of both requests
before either insert makes both requests pass with ceiling 1, ending
with 2 recorded sessions — the ceiling is exceeded. -/
theorem createSession_admission_race_oversubscribes :
    (runRace 1 raceInit overlapSched).p1 = AdmissionPhase.recorded ∧
    (runRace 1 raceInit overlapSched).p2 = AdmissionPhase.recorded ∧
    (runRace 1 raceInit overlapSched).storeCount = 2 ∧
    1 < (runRace 1 raceInit overlapSched).storeCount := by
  decide

/-- C7: the start step is retried up to exactly 3 attempts with
linearly increasing backoff (1000 ms times the attempt number),
creation is never retried (at most one `createContainer` call per
`startContainer`), and when start fails twice then succeeds on the
third attempt the session create path succeeds with exactly one
container created. -/
theorem provision_retry_budget_and_single_create :
    (∀ startOk : Nat → Bool, (DockerService.startContainerWithRetry startOk).attempts ≤ 3) ∧
    (∀ startOk : Nat → Bool, (DockerService.startContainerWithRetry startOk).sleeps =
      (List.range' 1 ((DockerService.startContainerWithRetry startOk).attempts - 1)).map
        (fun k => 1000 * k)) ∧
    (∀ (maxSessions : Nat) (o : DockerOracle),
      (DockerService.startContainer maxSessions o).createCalls ≤ 1) ∧
    ((DockerService.startContainer 10 thirdTryOracle).result =
        Except.ok { id := "c1", hostPort := 7000 } ∧
      (DockerService.startContainer 10 thirdTryOracle).startAttempts = 3 ∧
      (DockerService.startContainer 10 thirdTryOracle).sleeps = [1000, 2000] ∧
      (DockerService.startContainer 10 thirdTryOracle).createCalls = 1 ∧
      (DockerService.startContainer 10 thirdTryOracle).containersAfter = 1) ∧
    ((SessionManager.createSession 10 [] thirdTryOracle 300000 none 0).result =
        Except.ok
          { containerId := "c1", hostPort := 7000,
            proxyUrl := "/browser-session/c1/",
            browserUrl := "http://localhost:7000/",
            expiresAt := 300000, remainingTimeMs := 300000 } ∧
      (SessionManager.createSession 10 [] thirdTryOracle 300000 none 0).containersAfter = 1) := by
  refine ⟨?_, ?_, ?_, ?_, ?_⟩
  · intro startOk
    exact startRetryGo_attempts_le startOk 1000 3 1
  · intro startOk
    exact startRetryGo_sleeps_linear startOk 1000 3 1
  · intro maxSessions o
    unfold DockerService.startContainer
    split
    · simp
    · split
      · simp
      · split
        · simp
        · split
          · simp
          · simp
  · exact ⟨rfl, rfl, rfl, rfl, rfl⟩
  · exact ⟨rfl, rfl⟩

/-- C8: `getRemainingTime` is never negative, returns 0 for an
unknown id and returns 0 for an expired session. -/
theorem getRemainingTime_zero_unknown_expired :
    (∀ (st : Store) (id : String) (now : Int),
      0 ≤ SessionManager.getRemainingTime st id now) ∧
    (∀ (st : Store) (id : String) (now : Int), findSession st id = none →
      SessionManager.getRemainingTime st id now = 0) ∧
    (∀ (st : Store) (id : String) (now : Int) (s : Session),
      findSession st id = some s → s.expiresAt ≤ now →
      SessionManager.getRemainingTime st id now = 0) := by
  refine ⟨?_, ?_, ?_⟩
  · intro st id now
    unfold SessionManager.getRemainingTime SessionStore.getRemainingTime
    cases h : findSession st id
    · simp
    · simp [le_max_left]
  · intro st id now h
    simp [SessionManager.getRemainingTime, SessionStore.getRemainingTime, h]
  · intro st id now s h hexp
    have hd : s.expiresAt - now ≤ 0 := by omega
    simp [SessionManager.getRemainingTime, SessionStore.getRemainingTime, h,
      max_eq_left hd]

/-- Witness for `getRemainingTime_zero_unknown_expired` at concrete
inputs: an expired session and an unknown id. -/
theorem getRemainingTime_zero_unknown_expired_witness :
    SessionManager.getRemainingTime [("c1", sampleSession)] "c1" 200 = 0 ∧
    SessionManager.getRemainingTime [] "c1" 0 = 0 :=
  ⟨getRemainingTime_zero_unknown_expired.2.2 [("c1", sampleSession)] "c1" 200
      sampleSession (by decide) (by decide),
    getRemainingTime_zero_unknown_expired.2.1 [] "c1" 0 rfl⟩

/-- C9: when listing running containers fails,
`getActiveContainersCount` returns 0, so the capacity check in
`startContainer` never rejects for capacity when the ceiling is
positive — the concurrency ceiling fails open on runtime-listing
errors. -/
theorem listing_error_fails_open :
    (∀ o : DockerOracle, o.listActive = Except.error () →
      DockerService.getActiveContainersCount o = 0) ∧
    (∀ (o : DockerOracle) (maxSessions : Nat), o.listActive = Except.error () →
      0 < maxSessions →
      (DockerService.startContainer maxSessions o).result ≠
        Except.error SessionError.maxSessionsReached) := by
  constructor
  · intro o h
    simp [DockerService.getActiveContainersCount, h]
  · intro o maxSessions h hm
    have h0 : DockerService.getActiveContainersCount o = 0 := by
      simp [DockerService.getActiveContainersCount, h]
    unfold DockerService.startContainer
    rw [h0, if_neg (by omega)]
    split
    · simp
    · split
      · simp
      · split
        · simp
        · simp

/-- Witness for `listing_error_fails_open` at a concrete oracle with
a failing listing call and ceiling 10. -/
theorem listing_error_fails_open_witness :
    DockerService.getActiveContainersCount errListOracle = 0 ∧
    (DockerService.startContainer 10 errListOracle).result ≠
      Except.error SessionError.maxSessionsReached :=
  ⟨listing_error_fails_open.1 errListOracle rfl,
    listing_error_fails_open.2 errListOracle 10 rfl (by decide)⟩

/-- A session whose endpoint await timed out, recorded with host
port 0. -/
def zeroPortSession : Session :=
  { containerId := "c0", hostPort := 0, expiresAt := 1000,
    timer := some 1000, userId := none }

/-- C10: endpoint resolution returns the same `none` signal for a
session recorded with host port 0 (the `|| null` coercion) as for an
absent session, and the proxy answers 404 for both; the endpoint
await itself returns 0 when the port never appears within the
budget. -/
theorem resolve_conflates_zero_port_with_absent :
    (∀ (st : Store) (id : String) (s : Session),
      findSession st id = some s → s.hostPort = 0 →
      SessionManager.getSessionHostPort st id = none ∧
      proxyToBrowser st id = ProxyOutcome.notFound) ∧
    (∀ (st : Store) (id : String), findSession st id = none →
      SessionManager.getSessionHostPort st id = none ∧
      proxyToBrowser st id = ProxyOutcome.notFound) ∧
    DockerService.waitForHostPort (fun _ => 0) = 0 := by
  refine ⟨?_, ?_, rfl⟩
  · intro st id s h h0
    have hr : SessionManager.getSessionHostPort st id = none := by
      simp [SessionManager.getSessionHostPort, SessionStore.getSessionHostPort, h, h0]
    exact ⟨hr, by simp [proxyToBrowser, hr]⟩
  · intro st id h
    have hr : SessionManager.getSessionHostPort st id = none := by
      simp [SessionManager.getSessionHostPort, SessionStore.getSessionHostPort, h]
    exact ⟨hr, by simp [proxyToBrowser, hr]⟩

/-- Witness for `resolve_conflates_zero_port_with_absent`: a present
session with port 0 and an absent id resolve identically and both
draw a 404 from the proxy. -/
theorem resolve_conflates_zero_port_with_absent_witness :
    (SessionManager.getSessionHostPort [("c0", zeroPortSession)] "c0" = none ∧
      proxyToBrowser [("c0", zeroPortSession)] "c0" = ProxyOutcome.notFound) ∧
    (SessionManager.getSessionHostPort [("c0", zeroPortSession)] "absent" = none ∧
      proxyToBrowser [("c0", zeroPortSession)] "absent" = ProxyOutcome.notFound) :=
  ⟨resolve_conflates_zero_port_with_absent.1 [("c0", zeroPortSession)] "c0"
      zeroPortSession (by decide) rfl,
    resolve_conflates_zero_port_with_absent.2.1 [("c0", zeroPortSession)] "absent"
      (by decide)⟩

/-- C4 counterexample: the claim states that every create and
updateExpiry completes its durable-mirror write before returning.  In
the source `persistSession` is called without `await` in both, so at
return the write is still pending: here a concrete `createSession`
and a concrete `updateSessionExpiry` return with an empty completed
list and their TTL-scoped write still pending. -/
theorem create_and_update_return_with_mirror_write_pending :
    (SessionStore.createSession [] "c1" 7000 300000 none 0).2.2 =
      { completed := [], pending := [MirrorOp.write "c1" 300] } ∧
    (SessionStore.createSession [] "c1" 7000 300000 none 0).2.2.pending ≠ [] ∧
    (SessionStore.updateSessionExpiry [("c1", sampleSession)] "c1" 400000 0).2.2 =
      { completed := [], pending := [MirrorOp.write "c1" 400] } ∧
    (SessionStore.updateSessionExpiry [("c1", sampleSession)] "c1" 400000 0).2.2.pending ≠ [] := by
  refine ⟨rfl, by decide, by decide, by decide⟩

/-- C4 amended: `removeSession` completes its mirror delete before
returning, while `createSession` and `updateSessionExpiry` issue a
mirror write scoped to the remaining TTL but return without awaiting
its completion. -/
theorem remove_mirrors_synchronously_create_update_asynchronously :
    (∀ (st : Store) (id : String), (SessionStore.removeSession st id).1 = true →
      (SessionStore.removeSession st id).2.2 =
        { completed := [MirrorOp.delete id], pending := [] }) ∧
    (∀ (st : Store) (id : String) (hp : Nat) (dur : Int) (uid : Option String) (now : Int),
      (SessionStore.createSession st id hp dur uid now).2.2 =
        { completed := [], pending := [MirrorOp.write id (ttlSeconds dur)] }) ∧
    (∀ (st : Store) (id : String) (newExp now : Int) (s : Session),
      findSession st id = some s →
      (SessionStore.updateSessionExpiry st id newExp now).2.2 =
        { completed := [], pending := [MirrorOp.write id (ttlSeconds (newExp - now))] }) := by
  refine ⟨?_, ?_, ?_⟩
  · intro st id h
    unfold SessionStore.removeSession at h ⊢
    cases hf : findSession st id
    · rw [hf] at h; simp at h
    · rfl
  · intro st id hp dur uid now
    simp [SessionStore.createSession, add_sub_cancel_left]
  · intro st id newExp now s h
    simp [SessionStore.updateSessionExpiry, h]

/-- Witness for
`remove_mirrors_synchronously_create_update_asynchronously` at
concrete store operations. -/
theorem remove_mirrors_synchronously_witness :
    (SessionStore.removeSession [("c1", sampleSession)] "c1").2.2 =
      { completed := [MirrorOp.delete "c1"], pending := [] } ∧
    (SessionStore.createSession [] "c1" 7000 300000 none 0).2.2 =
      { completed := [], pending := [MirrorOp.write "c1" (ttlSeconds 300000)] } ∧
    (SessionStore.updateSessionExpiry [("c1", sampleSession)] "c1" 400000 0).2.2 =
      { completed := [], pending := [MirrorOp.write "c1" (ttlSeconds (400000 - 0))] } :=
  ⟨remove_mirrors_synchronously_create_update_asynchronously.1 [("c1", sampleSession)]
      "c1" (by decide),
    remove_mirrors_synchronously_create_update_asynchronously.2.1 [] "c1" 7000 300000 none 0,
    remove_mirrors_synchronously_create_update_asynchronously.2.2 [("c1", sampleSession)]
      "c1" 400000 0 sampleSession (by decide)⟩

/-- An oracle on which the container is created but every start
attempt fails. -/
def failStartOracle : DockerOracle :=
  { listActive := Except.ok 0, imageOk := true, createOk := true,
    startOk := fun _ => false, portAt := fun _ => 0,
    newContainerId := "c9" }

/-- C2 counterexample: the claim states that when a step after
admission fails, any container created so far is torn down before the
error propagates.  With create succeeding and the start retry budget
exhausted, the error propagates and the registry stays empty, but the
created container is still present in the runtime — nothing in the
source removes it. -/
theorem createSession_failure_leaves_container_behind :
    (SessionManager.createSession 10 [] failStartOracle 300000 none 0).result =
      Except.error SessionError.startFailed ∧
    (SessionManager.createSession 10 [] failStartOracle 300000 none 0).store = [] ∧
    (SessionManager.createSession 10 [] failStartOracle 300000 none 0).containersAfter = 1 ∧
    (SessionManager.createSession 10 [] failStartOracle 300000 none 0).containersAfter ≠ 0 := by
  exact ⟨rfl, rfl, rfl, by decide⟩

/-- C2 amended: every failing `createSession` propagates a single
error and leaves the registry unchanged with no pending mirror write,
but when the container was created and its start exhausted the retry
budget, the created container remains in the runtime rather than
being torn down before the error propagates. -/
theorem createSession_error_registry_clean_container_left :
    (∀ (maxSessions : Nat) (st : Store) (o : DockerOracle) (dur : Int)
        (uid : Option String) (now : Int) (e : SessionError),
      (SessionManager.createSession maxSessions st o dur uid now).result = Except.error e →
      (SessionManager.createSession maxSessions st o dur uid now).store = st ∧
      (SessionManager.createSession maxSessions st o dur uid now).pendingMirror = []) ∧
    (∀ (maxSessions : Nat) (st : Store) (o : DockerOracle) (dur : Int)
        (uid : Option String) (now : Int),
      SessionStore.getActiveSessionsCount st < maxSessions →
      DockerService.getActiveContainersCount o < maxSessions →
      o.imageOk = true → o.createOk = true →
      (DockerService.startContainerWithRetry o.startOk).success = false →
      (SessionManager.createSession maxSessions st o dur uid now).result =
        Except.error SessionError.startFailed ∧
      (SessionManager.createSession maxSessions st o dur uid now).containersAfter = 1) := by
  constructor
  · intro maxSessions st o dur uid now e h
    by_cases hc : maxSessions ≤ SessionStore.getActiveSessionsCount st
    · constructor
      · simp [SessionManager.createSession, hc]
      · simp [SessionManager.createSession, hc]
    · simp only [SessionManager.createSession, if_neg hc] at h ⊢
      cases hd : (DockerService.startContainer maxSessions o).result
      · simp [hd]
      · simp [hd] at h
  · intro maxSessions st o dur uid now h1 h2 h3 h4 h5
    have hne : ¬(maxSessions ≤ DockerService.getActiveContainersCount o) := by omega
    have hni : ¬(o.imageOk = false) := by simp [h3]
    have hnc : ¬(o.createOk = false) := by simp [h4]
    have hd1 : (DockerService.startContainer maxSessions o).result =
        Except.error SessionError.startFailed := by
      unfold DockerService.startContainer
      rw [if_neg hne, if_neg hni, if_neg hnc, if_pos h5]
    have hd2 : (DockerService.startContainer maxSessions o).containersAfter = 1 := by
      unfold DockerService.startContainer
      rw [if_neg hne, if_neg hni, if_neg hnc, if_pos h5]
    have hm : ¬(maxSessions ≤ SessionStore.getActiveSessionsCount st) := by omega
    constructor
    · simp [SessionManager.createSession, hm, hd1]
    · simp [SessionManager.createSession, hm, hd1, hd2]

/-- Witness for `createSession_error_registry_clean_container_left` at
a concrete failing run. -/
theorem createSession_error_registry_clean_witness :
    ((SessionManager.createSession 10 [] failStartOracle 300000 none 0).store = [] ∧
      (SessionManager.createSession 10 [] failStartOracle 300000 none 0).pendingMirror = []) ∧
    ((SessionManager.createSession 10 [] failStartOracle 300000 none 0).result =
        Except.error SessionError.startFailed ∧
      (SessionManager.createSession 10 [] failStartOracle 300000 none 0).containersAfter = 1) :=
  ⟨createSession_error_registry_clean_container_left.1 10 [] failStartOracle 300000 none 0
      SessionError.startFailed rfl,
    createSession_error_registry_clean_container_left.2 10 [] failStartOracle 300000 none 0
      (by decide) (by decide) rfl rfl (by decide)⟩

/-- A stop-path state with one active session whose container is
running. -/
def stopSysInit : SysState :=
  { store := [("c1", sampleSession)], containers := ["c1"], stopCalls := 0 }

/-- C3: the stop operation always answers 200 with `stopped: true`
(never a not-found error), stopping an active session then stopping
it again performs exactly one underlying runtime teardown call, and
stopping an already-gone session touches nothing. -/
theorem stopSession_idempotent_success_biased :
    (∀ (sys : SysState) (id : String) (now : Int),
      (stopSessionHandler sys id now).1 =
        { status := 200, success := true, flag := true }) ∧
    (∀ (sys : SysState) (id : String) (now : Int),
      SessionStore.isSessionActive sys.store id now = true →
      ((stopSessionHandler (stopSessionHandler sys id now).2 id now).2).stopCalls =
        sys.stopCalls + 1) ∧
    (∀ (sys : SysState) (id : String) (now : Int),
      SessionStore.isSessionActive sys.store id now = false →
      (stopSessionHandler sys id now).2 = sys) := by
  refine ⟨?_, ?_, ?_⟩
  · intro sys id now
    unfold stopSessionHandler
    by_cases h : SessionStore.isSessionActive sys.store id now = false
    · rw [if_pos h]
    · rw [if_neg h]
      simp
  · intro sys id now h
    have h1 : ¬(SessionStore.isSessionActive sys.store id now = false) := by simp [h]
    obtain ⟨s, hf⟩ : ∃ s, findSession sys.store id = some s := by
      unfold SessionStore.isSessionActive at h
      cases hff : findSession sys.store id
      · rw [hff] at h; simp at h
      · exact ⟨_, rfl⟩
    have hcall1 : (stopSessionHandler sys id now).2 =
        { store := eraseKV sys.store id,
          containers := (DockerService.stopContainer sys.containers id).2,
          stopCalls := sys.stopCalls + 1 } := by
      unfold stopSessionHandler
      rw [if_neg h1]
      simp [sessionManagerStopSession, SessionStore.removeSession, hf]
    have hact2 : SessionStore.isSessionActive (eraseKV sys.store id) id now = false := by
      unfold SessionStore.isSessionActive
      rw [findSession_eraseKV_self]
    rw [hcall1]
    unfold stopSessionHandler
    simp [hact2]
  · intro sys id now h
    unfold stopSessionHandler
    rw [if_pos h]

/-- Witness for `stopSession_idempotent_success_biased`: stopping the
same active session twice answers 200 `stopped: true` and makes one
teardown call in total. -/
theorem stopSession_idempotent_success_biased_witness :
    (stopSessionHandler stopSysInit "c1" 0).1 =
      { status := 200, success := true, flag := true } ∧
    ((stopSessionHandler (stopSessionHandler stopSysInit "c1" 0).2 "c1" 0).2).stopCalls =
      stopSysInit.stopCalls + 1 :=
  ⟨stopSession_idempotent_success_biased.1 stopSysInit "c1" 0,
    stopSession_idempotent_success_biased.2.1 stopSysInit "c1" 0 (by decide)⟩

/-- C5: extending an active session answers 200, strictly increases
its stored `expiresAt` by the (positive) extension and re-arms its
timer to the new expiry, while an inactive or unknown id is answered
404 with the store untouched and no mirror write, pending or
otherwise. -/
theorem extendSession_increases_expiry_rejects_inactive :
    (∀ (st : Store) (id : String) (extraMs now : Int) (s : Session),
      findSession st id = some s → now < s.expiresAt → 0 < extraMs →
      (extendSessionHandler st id extraMs now).1 =
        { status := 200, success := true, flag := true } ∧
      findSession (extendSessionHandler st id extraMs now).2.1 id =
        some { s with expiresAt := s.expiresAt + extraMs,
                      timer := some (s.expiresAt + extraMs) } ∧
      s.expiresAt < s.expiresAt + extraMs) ∧
    (∀ (st : Store) (id : String) (extraMs now : Int),
      SessionStore.isSessionActive st id now = false →
      extendSessionHandler st id extraMs now =
        ({ status := 404, success := false, flag := false }, st, [])) := by
  constructor
  · intro st id extraMs now s hf hact hpos
    have h1 : ¬(SessionStore.isSessionActive st id now = false) := by
      unfold SessionStore.isSessionActive
      rw [hf]
      simp [hact]
    have hm : SessionManager.extendSession st id extraMs now =
        (true,
          setKV st id { s with expiresAt := s.expiresAt + extraMs,
                               timer := some (s.expiresAt + extraMs) },
          [MirrorOp.write id (ttlSeconds (s.expiresAt + extraMs - now))]) := by
      simp [SessionManager.extendSession, SessionStore.getSession,
        SessionStore.updateSessionExpiry, hf]
    have hh : extendSessionHandler st id extraMs now =
        ({ status := 200, success := true, flag := true },
          setKV st id { s with expiresAt := s.expiresAt + extraMs,
                               timer := some (s.expiresAt + extraMs) },
          [MirrorOp.write id (ttlSeconds (s.expiresAt + extraMs - now))]) := by
      unfold extendSessionHandler
      rw [if_neg h1]
      simp [hm]
    refine ⟨by rw [hh], ?_, by omega⟩
    rw [hh]
    exact findSession_setKV_self st id _
  · intro st id extraMs now h
    unfold extendSessionHandler
    rw [if_pos h]

/-- Witness for `extendSession_increases_expiry_rejects_inactive`:
extending an active concrete session and an expired one. -/
theorem extendSession_increases_expiry_witness :
    ((extendSessionHandler [("c1", sampleSession)] "c1" 60000 0).1 =
        { status := 200, success := true, flag := true } ∧
      findSession (extendSessionHandler [("c1", sampleSession)] "c1" 60000 0).2.1 "c1" =
        some { sampleSession with
                expiresAt := sampleSession.expiresAt + 60000,
                timer := some (sampleSession.expiresAt + 60000) } ∧
      sampleSession.expiresAt < sampleSession.expiresAt + 60000) ∧
    extendSessionHandler [("c1", sampleSession)] "c1" 60000 200 =
      ({ status := 404, success := false, flag := false }, [("c1", sampleSession)], []) :=
  ⟨extendSession_increases_expiry_rejects_inactive.1 [("c1", sampleSession)] "c1" 60000 0
      sampleSession (by decide) (by decide) (by decide),
    extendSession_increases_expiry_rejects_inactive.2 [("c1", sampleSession)] "c1" 60000 200
      (by decide)⟩

theorem findSession_setKV_ne (st : Store) (k : String) (v : Session)
    (k' : String) (h : k ≠ k') :
    findSession (setKV st k v) k' = findSession st k' := by
  induction st with
  | nil => simp [setKV, findSession, h]
  | cons p rest ih =>
      by_cases hk : p.1 = k
      · have hk' : ¬(p.1 = k') := by rw [hk]; exact h
        simp [setKV, hk, findSession, h, hk']
      · simp [setKV, hk, findSession]
        by_cases hk2 : p.1 = k'
        · simp [hk2]
        · simp [hk2, ih]

/-- What the restore loop leaves in memory, in iteration order: one
entry per mirrored record whose `expiresAt` is in the future, keyed
by its container id, with no live timer. -/
def restoredMem : List (String × Session) → Int → Store
  | [], _ => []
  | q :: rest, now =>
      if now < q.2.expiresAt then
        (q.2.containerId, { q.2 with timer := none }) :: restoredMem rest now
      else restoredMem rest now

/-- The mirror keys the restore loop deletes, in iteration order: the
keys of the records whose `expiresAt` has passed. -/
def purgedKeys : List (String × Session) → Int → List String
  | [], _ => []
  | q :: rest, now =>
      if now < q.2.expiresAt then purgedKeys rest now
      else q.1 :: purgedKeys rest now

theorem loadFold_spec (now : Int) :
    ∀ (mirror : List (String × Session)) (acc : Store) (del : List String),
      (∀ p ∈ mirror, findSession acc p.2.containerId = none) →
      (mirror.map (fun p => p.2.containerId)).Nodup →
      mirror.foldl (SessionStore.loadStep now) (acc, del) =
        (acc ++ restoredMem mirror now, del ++ purgedKeys mirror now) := by
  intro mirror
  induction mirror with
  | nil =>
      intro acc del h hn
      simp [restoredMem, purgedKeys]
  | cons q rest ih =>
      intro acc del h hn
      have hq : findSession acc q.2.containerId = none := h q (List.mem_cons_self q rest)
      obtain ⟨hnotmem, hn'⟩ := List.nodup_cons.mp (by rw [List.map_cons] at hn; exact hn)
      rw [List.foldl_cons]
      by_cases hexp : now < q.2.expiresAt
      · have hstep : SessionStore.loadStep now (acc, del) q =
            (setKV acc q.2.containerId { q.2 with timer := none }, del) := by
          simp [SessionStore.loadStep, hexp]
        rw [hstep]
        have hrest : ∀ p ∈ rest,
            findSession (setKV acc q.2.containerId { q.2 with timer := none })
              p.2.containerId = none := by
          intro p hp
          have hne : q.2.containerId ≠ p.2.containerId := by
            intro hc
            exact hnotmem (hc ▸ List.mem_map_of_mem _ hp)
          rw [findSession_setKV_ne acc q.2.containerId _ p.2.containerId hne]
          exact h p (List.mem_cons_of_mem q hp)
        rw [ih (setKV acc q.2.containerId { q.2 with timer := none }) del hrest hn']
        rw [findSession_setKV_absent acc q.2.containerId _ hq]
        simp [restoredMem, purgedKeys, hexp]
      · have hstep : SessionStore.loadStep now (acc, del) q = (acc, del ++ [q.1]) := by
          simp [SessionStore.loadStep, hexp]
        rw [hstep]
        have hrest : ∀ p ∈ rest, findSession acc p.2.containerId = none := by
          intro p hp
          exact h p (List.mem_cons_of_mem q hp)
        rw [ih acc (del ++ [q.1]) hrest hn']
        simp [restoredMem, purgedKeys, hexp]

theorem findSession_restoredMem_of_mem (now : Int) :
    ∀ (mirror : List (String × Session)) (p : String × Session),
      (mirror.map (fun r => r.2.containerId)).Nodup → p ∈ mirror →
      now < p.2.expiresAt →
      findSession (restoredMem mirror now) p.2.containerId =
        some { p.2 with timer := none } := by
  intro mirror
  induction mirror with
  | nil => intro p hn hp; simp at hp
  | cons q rest ih =>
      intro p hn hp hexp
      obtain ⟨hnotmem, hn'⟩ := List.nodup_cons.mp (by rw [List.map_cons] at hn; exact hn)
      rcases List.mem_cons.mp hp with hpq | hp'
      · subst hpq
        simp [restoredMem, hexp, findSession]
      · have hne : q.2.containerId ≠ p.2.containerId := by
          intro hc
          exact hnotmem (hc ▸ List.mem_map_of_mem _ hp')
        by_cases hqe : now < q.2.expiresAt
        · simp only [restoredMem, if_pos hqe]
          unfold findSession
          rw [if_neg hne]
          exact ih p hn' hp' hexp
        · simp only [restoredMem, if_neg hqe]
          exact ih p hn' hp' hexp

theorem findSession_restoredMem_none (now : Int) :
    ∀ (mirror : List (String × Session)) (cid : String),
      (∀ p ∈ mirror, now < p.2.expiresAt → p.2.containerId ≠ cid) →
      findSession (restoredMem mirror now) cid = none := by
  intro mirror
  induction mirror with
  | nil => intro cid h; simp [restoredMem, findSession]
  | cons q rest ih =>
      intro cid h
      by_cases hqe : now < q.2.expiresAt
      · simp only [restoredMem, if_pos hqe]
        unfold findSession
        rw [if_neg (h q (List.mem_cons_self q rest) hqe)]
        exact ih cid (fun p hp => h p (List.mem_cons_of_mem q hp))
      · simp only [restoredMem, if_neg hqe]
        exact ih cid (fun p hp => h p (List.mem_cons_of_mem q hp))

theorem mem_purgedKeys (now : Int) :
    ∀ (mirror : List (String × Session)) (p : String × Session),
      p ∈ mirror → p.2.expiresAt ≤ now → p.1 ∈ purgedKeys mirror now := by
  intro mirror
  induction mirror with
  | nil => intro p hp; simp at hp
  | cons q rest ih =>
      intro p hp hexp
      rcases List.mem_cons.mp hp with hpq | hp'
      · subst hpq
        have : ¬(now < p.2.expiresAt) := by omega
        simp [purgedKeys, this]
      · by_cases hqe : now < q.2.expiresAt
        · simp only [purgedKeys, if_pos hqe]
          exact ih p hp' hexp
        · simp only [purgedKeys, if_neg hqe]
          exact List.mem_cons_of_mem _ (ih p hp' hexp)

theorem restoredMem_timer_none (now : Int) :
    ∀ (mirror : List (String × Session)) (q : String × Session),
      q ∈ restoredMem mirror now → q.2.timer = none := by
  intro mirror
  induction mirror with
  | nil => intro q hq; simp [restoredMem] at hq
  | cons r rest ih =>
      intro q hq
      by_cases hre : now < r.2.expiresAt
      · rw [restoredMem, if_pos hre] at hq
        rcases List.mem_cons.mp hq with hqr | hq'
        · subst hqr; rfl
        · exact ih q hq'
      · rw [restoredMem, if_neg hre] at hq
        exact ih q hq

/-- A mirrored record that has not expired at restore time (the
record is JSON-parsed, so it carries no live timer). -/
def liveMirrorSession : Session :=
  { containerId := "a", hostPort := 7000, expiresAt := 100,
    timer := none, userId := none }

/-- A mirrored record whose expiry has passed at restore time. -/
def deadMirrorSession : Session :=
  { containerId := "b", hostPort := 7001, expiresAt := 10,
    timer := none, userId := none }

/-- A two-record mirror with one live and one expired entry. -/
def sampleMirror : List (String × Session) :=
  [("session:a", liveMirrorSession), ("session:b", deadMirrorSession)]

/-- C6 counterexample: the claim states that restore re-arms the
timers of the entries it loads.  At this concrete input a mirror
entry whose `expiresAt` (100) is still ahead of the restore time (50)
is loaded into memory, yet its `timer` is `none`: the restore loop
never calls `setTimeout`, so no timer is armed for it. -/
theorem restore_does_not_rearm_timer :
    findSession (SessionStore.loadSessionsFromRedis
        [("session:a", liveMirrorSession)] 50).1 "a" = some liveMirrorSession ∧
    liveMirrorSession.timer = none ∧
    (50 : Int) < liveMirrorSession.expiresAt := by
  exact ⟨rfl, rfl, by decide⟩

/-- C6 amended: restore loads into memory exactly the mirror entries
whose `expiresAt` is still in the future — each without any live
timer armed — and deletes every expired mirror entry without
restoring it. -/
theorem restore_loads_unexpired_purges_expired :
    ∀ (mirror : List (String × Session)) (now : Int),
      (mirror.map (fun p => p.2.containerId)).Nodup →
      SessionStore.loadSessionsFromRedis mirror now =
        (restoredMem mirror now, purgedKeys mirror now) ∧
      (∀ p ∈ mirror, now < p.2.expiresAt →
        findSession (SessionStore.loadSessionsFromRedis mirror now).1 p.2.containerId =
          some { p.2 with timer := none }) ∧
      (∀ p ∈ mirror, p.2.expiresAt ≤ now →
        p.1 ∈ (SessionStore.loadSessionsFromRedis mirror now).2 ∧
        findSession (SessionStore.loadSessionsFromRedis mirror now).1 p.2.containerId =
          none) ∧
      (∀ q ∈ (SessionStore.loadSessionsFromRedis mirror now).1, q.2.timer = none) := by
  intro mirror now hn
  have hload : SessionStore.loadSessionsFromRedis mirror now =
      (restoredMem mirror now, purgedKeys mirror now) := by
    unfold SessionStore.loadSessionsFromRedis
    have hspec := loadFold_spec now mirror [] [] (fun p _ => rfl) hn
    simpa using hspec
  refine ⟨hload, ?_, ?_, ?_⟩
  · intro p hp hexp
    rw [hload]
    exact findSession_restoredMem_of_mem now mirror p hn hp hexp
  · intro p hp hexp
    rw [hload]
    refine ⟨mem_purgedKeys now mirror p hp hexp, ?_⟩
    apply findSession_restoredMem_none
    intro q hq hqexp hceq
    have hqp : q = p := List.inj_on_of_nodup_map hn hq hp hceq
    rw [hqp] at hqexp
    omega
  · intro q hq
    rw [hload] at hq
    exact restoredMem_timer_none now mirror q hq

/-- Witness for `restore_loads_unexpired_purges_expired` on a mirror
with one live and one expired record. -/
theorem restore_loads_unexpired_witness :
    findSession (SessionStore.loadSessionsFromRedis sampleMirror 50).1
      liveMirrorSession.containerId = some { liveMirrorSession with timer := none } ∧
    ("session:b" ∈ (SessionStore.loadSessionsFromRedis sampleMirror 50).2 ∧
      findSession (SessionStore.loadSessionsFromRedis sampleMirror 50).1
        deadMirrorSession.containerId = none) :=
  ⟨(restore_loads_unexpired_purges_expired sampleMirror 50 (by decide)).2.1
      ("session:a", liveMirrorSession) (by decide) (by decide),
    (restore_loads_unexpired_purges_expired sampleMirror 50 (by decide)).2.2.1
      ("session:b", deadMirrorSession) (by decide) (by decide)⟩
